import Mathlib

/-
Verification of the blob-dl download-orchestration core against its
natural-language specification.

The Rust sources under src/ are embedded shallowly: strings are Lean
`String`s manipulated through structural functions over `String.data`
(so that every definition kernel-reduces), child-process side effects
are replaced by explicit line lists, interactive prompts by explicit
selection arguments, and Rust panics by `Option` (`none` = panic).

Parts of the repository that the sources reference but that are not
present under src/ (the `youtube_error_message` and `ui_prompts` string
constants, `error::YtdlpError`, `parser::Verbosity`'s data, the
`DownloadConfig` command builder, `check_format`, the legacy
`VideoFormat`/`VideoSpecs` helpers) are modelled from the spec; each
such definition carries a doc comment starting with
`Modelled from the spec:`.
-/

/-! ## String helpers (structural, kernel-reducible) -/

/-- Boolean infix test on char lists; `listHasInfix pat s` holds iff `pat`
occurs contiguously inside `s`.  Mirrors Rust `str::contains`. -/
def listHasInfix (pat : List Char) : List Char → Bool
  | [] => pat.isEmpty
  | c :: rest => pat.isPrefixOf (c :: rest) || listHasInfix pat rest

/-- Embedding of Rust `str::contains` (substring containment). -/
def containsStr (s pat : String) : Bool := listHasInfix pat.data s.data

/-- Split a char list at every occurrence of a separator character. -/
def splitOnCharAux (sep : Char) : List Char → List Char → List (List Char)
  | acc, [] => [acc.reverse]
  | acc, c :: rest =>
    if c = sep then acc.reverse :: splitOnCharAux sep [] rest
    else splitOnCharAux sep (c :: acc) rest

/-- Split a char list on a separator character (keeps empty pieces, like
Rust `str::split`). -/
def splitOnChar (sep : Char) (l : List Char) : List (List Char) :=
  splitOnCharAux sep [] l

/-- Find the first occurrence of `delim` in a char list: returns the piece
before it and the remainder after it, or `none` when `delim` does not
occur. -/
def breakOnSeq (delim : List Char) : List Char → Option (List Char × List Char)
  | [] => none
  | c :: rest =>
    if delim.isPrefixOf (c :: rest) then some ([], (c :: rest).drop delim.length)
    else
      match breakOnSeq delim rest with
      | some (pre, post) => some (c :: pre, post)
      | none => none

/-- Fuel-driven worker for `splitOnSeq`; the fuel (initially the length of
the input) bounds the number of delimiter occurrences, which keeps the
recursion structural. -/
def splitOnSeqAux (delim : List Char) : Nat → List Char → List (List Char)
  | 0, s => [s]
  | fuel + 1, s =>
    match breakOnSeq delim s with
    | none => [s]
    | some (pre, post) => pre :: splitOnSeqAux delim fuel post

/-- Embedding of Rust `str::split` with a (non-empty) string pattern. -/
def splitOnSeq (delim s : List Char) : List (List Char) :=
  splitOnSeqAux delim s.length s

/-- Drop one trailing carriage return, as Rust `str::lines` does on each
line. -/
def stripTrailingCR (cs : List Char) : List Char :=
  if cs.getLast? = some '\r' then cs.dropLast else cs

/-- Embedding of Rust `str::lines` on char lists: split on newline, strip a
trailing carriage return from each piece, and drop the final empty piece
produced by a trailing newline. -/
def rustLinesL (s : List Char) : List (List Char) :=
  match s with
  | [] => []
  | _ =>
    let parts := (splitOnChar '\n' s).map stripTrailingCR
    if s.getLast? = some '\n' then parts.dropLast else parts

/-- Embedding of Rust `str::lines` on `String`. -/
def rustLines (s : String) : List String := (rustLinesL s.data).map String.mk

/-- Parse a char list as a decimal natural number (Rust `str::parse::<u32>`
restricted to the values the claims touch; `none` on any non-digit). -/
def charsToNatAux : Nat → List Char → Option Nat
  | acc, [] => some acc
  | acc, c :: rest =>
    if c.isDigit then charsToNatAux (acc * 10 + (c.toNat - 48)) rest else none

/-- Parse a string as a decimal natural number; `none` when the string is
empty or has a non-digit character. -/
def charsToNat (s : String) : Option Nat :=
  match s.data with
  | [] => none
  | l => charsToNatAux 0 l

/-! ## run.rs: error classification (src/src/run.rs lines 60-94) -/

namespace Run

/-- Modelled from the spec: the `parser::Verbosity` enum (module `parser`
is not under src/); src/src/run.rs matches exactly these three
constructors. -/
inductive Verbosity
  | Quiet
  | Default
  | Verbose
deriving DecidableEq, Repr

/-- Modelled from the spec: `crate::error::YtdlpError` (not under src/),
the spec's DownloadError with a raw message and an item identifier. -/
structure YtdlpError where
  video_id : String
  error_msg : String
deriving DecidableEq, Repr

/-- Modelled from the spec: `YtdlpError::from_error_output` (not under
src/) builds a DownloadError from one diagnostic line; the claims below
depend only on which lines produce an entry, so the line is kept verbatim
in both fields. -/
def YtdlpError.from_error_output (line : String) : YtdlpError := ⟨line, line⟩

/-- Modelled from the spec: the `youtube_error_message` constant for the
hard-override message checked before the table lookup. -/
def VIDEO_UNAVAILABLE : String := "Video unavailable"

/-- Modelled from the spec: documented message, private video. -/
def PRIVATE_VIDEO : String := "Private video"

/-- Modelled from the spec: documented message, playlist does not exist. -/
def NONEXISTENT_PLAYLIST : String := "The playlist does not exist"

/-- Modelled from the spec: documented message, redirect to home page. -/
def HOMEPAGE_REDIRECT : String := "The playlist page redirected to the home page"

/-- Modelled from the spec: documented message, violent content removal. -/
def VIOLENT_VIDEO : String := "This video has been removed for violating policy on violent content"

/-- Modelled from the spec: documented message, video removed. -/
def REMOVED_VIDEO : String := "This video has been removed by the uploader"

/-- Modelled from the spec: documented message, the tool gave up after
retries. -/
def YTDLP_GAVE_UP : String := "Giving up after 10 retries"

/-- Modelled from the spec: documented message, video not found. -/
def VIDEO_NOT_FOUND : String := "Video not found"

/-- Modelled from the spec: documented message, network failure (the only
recoverable table entry). -/
def NETWORK_FAIL : String := "Temporary failure in name resolution"

/-- Modelled from the spec: documented message, API page unavailable. -/
def NO_API_PAGE : String := "Unable to download API page"

/-- Modelled from the spec: documented message, encoder/stream error. -/
def ENCODER_STREAM_ERROR : String := "Error opening encoder or stream"

/-- Modelled from the spec: documented message, nonexistent video. -/
def NONEXISTENT_VIDEO : String := "This video does not exist"

/-- Embedding of `init_error_msg_lut` (src/src/run.rs lines 80-94): the
static table of documented messages and their recoverability; the HashMap
is modelled as an association list queried by exact key equality. The
boolean values are the ones in src; only the key strings are modelled
from the spec. -/
def init_error_msg_lut : List (String × Bool) :=
  [ (PRIVATE_VIDEO,          false),
    (NONEXISTENT_PLAYLIST,   false),
    (HOMEPAGE_REDIRECT,      false),
    (VIOLENT_VIDEO,          false),
    (REMOVED_VIDEO,          false),
    (YTDLP_GAVE_UP,          false),
    (VIDEO_NOT_FOUND,        false),
    (NETWORK_FAIL,           true),
    (NO_API_PAGE,            false),
    (ENCODER_STREAM_ERROR,   false),
    (NONEXISTENT_VIDEO,      false) ]

/-- Embedding of `is_recoverable` (src/src/run.rs lines 61-77): the
"video unavailable" containment check comes first, then an exact lookup
in the table, and undocumented messages default to recoverable. -/
def is_recoverable (error : YtdlpError) (table : List (String × Bool)) : Bool :=
  if containsStr error.error_msg VIDEO_UNAVAILABLE then false
  else
    match table.lookup error.error_msg with
    | some result => if result = false then false else true
    | none => true

/-- Spec-side restatement of the classifier (spec section 4.3), for the
refinement in claim C3: hard override by containment, then the table
boolean, defaulting to recoverable. -/
def isRecoverableSpec (msg : String) : Bool :=
  if containsStr msg VIDEO_UNAVAILABLE then false
  else ((init_error_msg_lut.lookup msg).getD true)

/-! ## run.rs: process runner (src/src/run.rs lines 96-161) -/

/-- Embedding of the order in which `run_command` consumes the child
process output: `stdout.lines().chain(stderr.lines())` reads every
stdout line (to end of stream) before the first stderr line. -/
def consumed_lines (stdout_lines stderr_lines : List String) : List String :=
  stdout_lines ++ stderr_lines

/-- Embedding of the `Verbosity::Quiet` loop of `run_command`
(src/src/run.rs lines 113-123): echo nothing, accumulate an error for
every line containing the error marker.  Result: (echoed lines,
accumulated errors), in source order. -/
def process_quiet : List String → List String × List YtdlpError
  | [] => ([], [])
  | line :: rest =>
    let (echoed, errors) := process_quiet rest
    if containsStr line "ERROR:" then (echoed, YtdlpError.from_error_output line :: errors)
    else (echoed, errors)

/-- Embedding of the `Verbosity::Default` loop of `run_command`
(src/src/run.rs lines 125-138): echo lines containing the progress
marker, otherwise echo and accumulate lines containing the error
marker. -/
def process_default : List String → List String × List YtdlpError
  | [] => ([], [])
  | line :: rest =>
    let (echoed, errors) := process_default rest
    if containsStr line "[download]" then (line :: echoed, errors)
    else if containsStr line "ERROR:" then
      (line :: echoed, YtdlpError.from_error_output line :: errors)
    else (echoed, errors)

/-- Embedding of the `Verbosity::Verbose` loop of `run_command`
(src/src/run.rs lines 140-153): echo every line, accumulate lines
containing the error marker. -/
def process_verbose : List String → List String × List YtdlpError
  | [] => ([], [])
  | line :: rest =>
    let (echoed, errors) := process_verbose rest
    if containsStr line "ERROR:" then
      (line :: echoed, YtdlpError.from_error_output line :: errors)
    else (line :: echoed, errors)

/-- Embedding of `run_command` (src/src/run.rs lines 99-161): the child
process is replaced by its two captured line streams; returns `none`
when no errors were accumulated and `some errors` otherwise. -/
def run_command (verbosity : Verbosity) (stdout_lines stderr_lines : List String) :
    Option (List YtdlpError) :=
  let lines := consumed_lines stdout_lines stderr_lines
  let errors :=
    match verbosity with
    | Verbosity.Quiet => (process_quiet lines).2
    | Verbosity.Default => (process_default lines).2
    | Verbosity.Verbose => (process_verbose lines).2
  if errors.isEmpty then none else some errors

/-! ## run.rs: retry coordinator (src/src/run.rs lines 19-58 and 163-211) -/

/-- Modelled from the spec: the `ui_prompts::SELECT_ALL` constant (not
under src/), the fixed "retry all" option. -/
def SELECT_ALL : String := "Redownload all videos"

/-- Modelled from the spec: the `ui_prompts::SELECT_NOTHING` constant (not
under src/), the fixed "retry none" option. -/
def SELECT_NOTHING : String := "Do not redownload anything"

/-- Modelled from the spec: the `Display` rendering of a `YtdlpError`
(crate::error, not under src/), the text shown for one retry option. -/
def YtdlpError.display (e : YtdlpError) : String :=
  e.video_id ++ " " ++ e.error_msg

/-- Modelled from the spec: the batch-wide download configuration
(`assembling::youtube::config::DownloadConfig`, not under src/), kept
opaque. -/
structure DownloadConfig where
  tag : String
deriving DecidableEq, Repr

/-- Modelled from the spec: an executable command rebuilt for one video,
`buildCommand(target) -> ExecutableCommand`. -/
structure VideoCommand where
  config : DownloadConfig
  video_id : String
deriving DecidableEq, Repr

/-- Modelled from the spec: `DownloadConfig::build_command_for_video` (not
under src/) rebuilds one command for one video id, reusing the original
configuration. -/
def DownloadConfig.build_command_for_video (c : DownloadConfig) (vid : String) : VideoCommand :=
  ⟨c, vid⟩

/-- Embedding of the partitioning loop of `ask_for_redownload`
(src/src/run.rs lines 181-189): recoverable errors become prompt options
(in order), unrecoverable errors are collected for reporting (in
order). -/
def collect_options : List YtdlpError → List String × List YtdlpError
  | [] => ([], [])
  | e :: es =>
    let (opts, unrec) := collect_options es
    if is_recoverable e init_error_msg_lut then (e.display :: opts, unrec)
    else (opts, e :: unrec)

/-- Observable outcome of `ask_for_redownload`: the option list that would
be shown, the unrecoverable errors printed, whether the interactive
prompt was issued, and the returned selection. -/
structure RedownloadOutcome where
  user_options : List String
  reported : List YtdlpError
  prompted : Bool
  selection : List Nat
deriving DecidableEq, Repr

/-- Embedding of `ask_for_redownload` (src/src/run.rs lines 166-211): the
interactive MultiSelect is replaced by the `choose` argument, applied to
the option list exactly when the prompt is issued (more than the two
fixed options). -/
def ask_for_redownload (errors : List YtdlpError) (choose : List String → List Nat) :
    RedownloadOutcome :=
  let (opts, unrec) := collect_options errors
  let user_options := SELECT_ALL :: SELECT_NOTHING :: opts
  if user_options.length > 2 then ⟨user_options, unrec, true, choose user_options⟩
  else ⟨user_options, unrec, false, []⟩

/-- Embedding of the third branch of `run_and_observe`'s selection
handling (src/src/run.rs lines 40-48): iterate over the whole selection,
skip the two hard-coded indices, and rebuild `errors[i - 2]` for every
other index; an out-of-bounds index is a Rust panic, modelled as
`none`. -/
def rebuild_selected (errors : List YtdlpError) (cfg : DownloadConfig) :
    List Nat → Option (List VideoCommand)
  | [] => some []
  | i :: is =>
    if i = 0 ∨ i = 1 then rebuild_selected errors cfg is
    else
      match errors.get? (i - 2) with
      | none => none
      | some e => (rebuild_selected errors cfg is).map (cfg.build_command_for_video e.video_id :: ·)

/-- Embedding of the command-rebuilding part of `run_and_observe`
(src/src/run.rs lines 26-50): empty selection rebuilds nothing, a
selection starting with 0 rebuilds a command for every error in the
list, a selection starting with 1 rebuilds nothing, and any other
selection is handled index by index. -/
def to_be_downloaded (errors : List YtdlpError) (user_selection : List Nat)
    (cfg : DownloadConfig) : Option (List VideoCommand) :=
  match user_selection with
  | [] => some []
  | s :: rest =>
    if s = 0 then some (errors.map (fun e => cfg.build_command_for_video e.video_id))
    else if s = 1 then some []
    else rebuild_selected errors cfg (s :: rest)

end Run

/-! ## assembling/youtube/yt_playlist/wizard.rs: batch format selection -/

namespace YtPlaylist

/-- Modelled from the spec: the legacy `VideoFormat` record (its defining
module is not under src/); its shape is pinned by the unit tests in
src/src/assembling/youtube/yt_playlist/wizard.rs (fields code,
file_extension, resolution with sentinel "audio", size). -/
structure VideoFormat where
  code : Nat
  file_extension : String
  resolution : String
  size : String
deriving DecidableEq, Repr

/-- Modelled from the spec: the legacy `VideoSpecs` catalog (one item's
ordered format list; its defining module is not under src/). -/
structure VideoSpecs where
  formats : List VideoFormat
deriving DecidableEq, Repr

/-- Accessor `VideoSpecs::available_formats` used by the wizard loop. -/
def VideoSpecs.available_formats (v : VideoSpecs) : List VideoFormat := v.formats

/-- Modelled from the spec: `VideoSpecs::is_empty` (not under src/). -/
def VideoSpecs.is_empty (v : VideoSpecs) : Bool := v.formats.isEmpty

/-- Modelled from the spec: `VideoSpecs::refresh_and_sort_ids` (not under
src/): the catalog's ids, sorted and deduplicated, as required by the
`sdset::Set` the wizard builds from them. -/
def VideoSpecs.refresh_and_sort_ids (v : VideoSpecs) : List Nat :=
  ((v.formats.map (fun f => f.code)).insertionSort (· ≤ ·)).dedup

/-- Modelled from the spec: `VideoFormat::to_frontend` (not under src/),
the human-readable label of one format, built from the format's own
fields. -/
def VideoFormat.to_frontend (f : VideoFormat) : String :=
  f.file_extension ++ " | " ++ f.resolution ++ " | " ++ f.size

/-- The `MediaSelection` enum as consumed by this wizard
(src/src/assembling/youtube/yt_playlist/wizard.rs lines 48-52 and
104-111): video files or audio-only. -/
inductive MediaSelection
  | Video
  | Audio
deriving DecidableEq, Repr

/-- The format preference produced by this wizard
(src/src/assembling/youtube/yt_playlist/wizard.rs lines 128-132). -/
inductive VideoQualityAndFormatPreferences
  | BestQuality
  | WorstQuality
  | UniqueFormat (id : Nat)
deriving DecidableEq, Repr

/-- First fixed pseudo-option of the playlist wizard
(src/src/assembling/youtube/yt_playlist/wizard.rs line 92). -/
def BEST_PROMPT : String := "Best available quality for each video"

/-- Second fixed pseudo-option of the playlist wizard
(src/src/assembling/youtube/yt_playlist/wizard.rs line 92). -/
def WORST_PROMPT : String := "Worst available quality for each video"

namespace format

/-- Embedding of the `sdset` intersection computed by `get_format`
(src/src/assembling/youtube/yt_playlist/wizard.rs lines 80-90): the
sorted ids of the first catalog that occur in every catalog of the
batch. -/
def common_ids (videos : List VideoSpecs) : List Nat :=
  match videos with
  | [] => []
  | v0 :: _ =>
    v0.refresh_and_sort_ids.filter
      (fun id => videos.all (fun v => v.refresh_and_sort_ids.contains id))

/-- Embedding of the option-building double loop of `get_format`
(src/src/assembling/youtube/yt_playlist/wizard.rs lines 95-120): for
every common id, scan the first catalog's formats, skip the ones failing
the media-kind filter, and emit (label, id) for each format whose code
matches the id. -/
def concrete_options (videos : List VideoSpecs) (media_selected : MediaSelection) :
    List (String × Nat) :=
  (common_ids videos).flatMap (fun id =>
    match videos.head? with
    | none => []
    | some first_video =>
      first_video.available_formats.filterMap (fun format =>
        if media_selected = MediaSelection.Video ∧ format.resolution = "audio" then none
        else if media_selected = MediaSelection.Audio ∧ format.resolution ≠ "audio" then none
        else if format.code = id then some (format.to_frontend, id)
        else none))

/-- The full option list shown by `get_format`: the two fixed
pseudo-options followed by the concrete labels. -/
def format_options (videos : List VideoSpecs) (media_selected : MediaSelection) :
    List String :=
  [BEST_PROMPT, WORST_PROMPT] ++ (concrete_options videos media_selected).map Prod.fst

/-- The ids backing the concrete options, aligned with `format_options`
after the two fixed entries (the wizard's `correct_ids`). -/
def correct_ids (videos : List VideoSpecs) (media_selected : MediaSelection) : List Nat :=
  (concrete_options videos media_selected).map Prod.snd

/-- Embedding of the selection match of `get_format`
(src/src/assembling/youtube/yt_playlist/wizard.rs lines 128-132): 0 and
1 map to the fixed preferences, any other index picks
`correct_ids[user_selection - 2]`; an out-of-bounds index is a Rust
panic, modelled as `none`. -/
def get_format (videos : List VideoSpecs) (media_selected : MediaSelection)
    (user_selection : Nat) : Option VideoQualityAndFormatPreferences :=
  match user_selection with
  | 0 => some VideoQualityAndFormatPreferences.BestQuality
  | 1 => some VideoQualityAndFormatPreferences.WorstQuality
  | n + 2 =>
    ((correct_ids videos media_selected).get? n).map
      VideoQualityAndFormatPreferences.UniqueFormat

/-- Modelled from the spec: `VideoFormat::from_command` (not under src/)
parses one legacy table line into a format record; column layout follows
spec section 4.1 and is pinned by the unit tests in
src/src/assembling/youtube/yt_playlist/wizard.rs (resolution column
"audio only" is stored as "audio", and the size column sits after the
quality note). -/
def VideoFormat.from_command (line : String) : VideoFormat :=
  let tokens := ((splitOnChar ' ' line.data).map String.mk).filter (fun t => t ≠ "")
  let resolution := tokens.getD 2 ""
  { code := (charsToNat (tokens.getD 0 "")).getD 0,
    file_extension := tokens.getD 1 "",
    resolution := resolution,
    size := if resolution = "audio" then tokens.getD 6 "" else tokens.getD 4 "" }

/-- Embedding of the inner line loop of `fetch_formats`
(src/src/assembling/youtube/yt_playlist/wizard.rs lines 159-169), over
the paragraph's lines after the first: `line.chars().next().unwrap()`
panics on an empty line (modelled as `none`); lines whose first
character is not numeric or that contain "video only" are skipped; every
other line is parsed into a format. -/
def parse_paragraph_lines : List (List Char) → Option (List VideoFormat)
  | [] => some []
  | line :: rest =>
    match line with
    | [] => none
    | c :: _ =>
      if ¬c.isDigit ∨ listHasInfix "video only".data line then parse_paragraph_lines rest
      else (parse_paragraph_lines rest).map (VideoFormat.from_command (String.mk line) :: ·)

/-- Embedding of the paragraph loop of `fetch_formats`
(src/src/assembling/youtube/yt_playlist/wizard.rs lines 153-178): each
paragraph's first line is discarded, a paragraph with zero valid lines
is skipped, and every other paragraph contributes one catalog. -/
def fetch_formats_go : List (List Char) → Option (List VideoSpecs)
  | [] => some []
  | para :: rest =>
    match parse_paragraph_lines ((rustLinesL para).drop 1) with
    | none => none
    | some formats =>
      let video : VideoSpecs := ⟨formats⟩
      if video.is_empty then fetch_formats_go rest
      else (fetch_formats_go rest).map (video :: ·)

/-- Embedding of `fetch_formats`
(src/src/assembling/youtube/yt_playlist/wizard.rs lines 149-181): split
the raw dump into per-video paragraphs and parse each; `none` models a
panic, `some` the `Ok` result. -/
def fetch_formats (output : String) : Option (List VideoSpecs) :=
  fetch_formats_go (splitOnSeq ("[download] Downloading video".data) output.data)

end format

end YtPlaylist

/-! ## assembling/youtube.rs and assembling/youtube/yt_video.rs -/

namespace Youtube

/-- Render a natural number in decimal (structural, fuel on the first
argument; used only to print field values in display labels). -/
def natToCharsAux : Nat → Nat → List Char
  | 0, _ => []
  | fuel + 1, n =>
    if n < 10 then [Char.ofNat (48 + n)]
    else natToCharsAux fuel (n / 10) ++ [Char.ofNat (48 + n % 10)]

/-- Decimal rendering of a natural number. -/
def natToString (n : Nat) : String := String.mk (natToCharsAux (n + 1) n)

/-- Decimal rendering of a rational number as numerator/denominator (the
source prints an `f64`; the exact float formatting is presentation-only
and not relied on by any claim). -/
def ratToString (q : ℚ) : String :=
  (if q.num < 0 then "-" else "") ++ natToString q.num.natAbs ++ "/" ++ natToString q.den

/-- The `MediaSelection` enum (src/src/assembling/youtube.rs lines
67-72). -/
inductive MediaSelection
  | Video
  | VideoOnly
  | AudioOnly
deriving DecidableEq, Repr

/-- The serde `VideoFormat` record (src/src/assembling/youtube.rs lines
75-100); the `f64` fields are modelled as rationals (no claim computes
with them). -/
structure VideoFormat where
  format_id : String
  ext : String
  fps : Option ℚ
  audio_channels : Option Nat
  resolution : String
  filesize : Option Nat
  vcodec : String
  acodec : String
  format_note : String
  container : Option String
  tbr : Option ℚ
  filesize_approx : Option Nat
deriving DecidableEq, Repr

/-- The serde `VideoSpecs` record (src/src/assembling/youtube.rs lines
153-161): one video's format list. -/
structure VideoSpecs where
  formats : List VideoFormat
deriving DecidableEq, Repr

/-- Accessor `VideoSpecs::formats`. -/
def VideoSpecs.formats' (v : VideoSpecs) : List VideoFormat := v.formats

/-- The placeholder text the `Display` implementation writes for a format
with no bitrate (src/src/assembling/youtube.rs line 147). -/
def PICTURE_PLACEHOLDER : String := "I shouldn't show up because I am a picture format"

/-- Embedding of `impl fmt::Display for VideoFormat`
(src/src/assembling/youtube.rs lines 102-150): a format with a bitrate is
rendered from its fields (`none` models the `expect` panic when both
filesize fields are absent; numeric padding and float formatting are
simplified, which no claim relies on); a format with no bitrate renders
as the placeholder text instead of being omitted. -/
def VideoFormat.display (f : VideoFormat) : Option String :=
  match f.tbr with
  | some tbr =>
    let base := f.ext ++ " "
    let base := if f.resolution ≠ "audio only" then base ++ "| " ++ f.resolution ++ " " else base
    match f.filesize, f.filesize_approx with
    | none, none => none
    | some fs, _ =>
      some (base ++ "| filesize: " ++ natToString fs ++ displayTail f tbr)
    | none, some fs =>
      some (base ++ "| filesize: " ++ natToString fs ++ displayTail f tbr)
  | none => some PICTURE_PLACEHOLDER
where
  /-- Audio-channel, bitrate and codec sections of the rendering. -/
  displayTail (f : VideoFormat) (tbr : ℚ) : String :=
    (match f.audio_channels with
     | some ch => "| " ++ natToString ch ++ " audio ch "
     | none => "") ++
    "| tbr: " ++ ratToString tbr ++ " " ++
    (if f.vcodec ≠ "none" then "| vcodec: " ++ f.vcodec ++ " " else "") ++
    (if f.acodec ≠ "none" then "| acodec: " ++ f.acodec ++ " " else "")

/-- Modelled from the spec: `check_format` (crate::assembling::youtube,
not under src/), the per-format eligibility filter used by
`get_format_from_yt`: descriptors with no bitrate (thumbnail formats)
are never offered (spec sections 3 and 4.1), and the media kind selects
by the "audio only" resolution sentinel and the codec sentinels (spec
section 3). -/
def check_format (f : VideoFormat) (media_selected : MediaSelection) : Bool :=
  f.tbr.isSome &&
    (match media_selected with
     | MediaSelection.Video => f.resolution ≠ "audio only"
     | MediaSelection.AudioOnly => f.resolution = "audio only"
     | MediaSelection.VideoOnly => f.vcodec ≠ "none" && f.acodec = "none")

namespace format

/-- Embedding of the root-selection step of `get_format_from_yt`
(src/src/assembling/youtube/yt_video.rs lines 92-105):
`lines().nth(playlist_id - 1).unwrap()` on the raw dump.  For
`playlist_id = 0` the subtraction underflows (a Rust panic in debug
builds; in release builds the index wraps to 2^64 - 1 and the `unwrap`
of `nth`'s `None` panics), and for `playlist_id` beyond the number of
lines the `unwrap` panics; both panics are modelled as `none`. -/
def select_json_root (stdout_dump : String) (playlist_id : Nat) : Option String :=
  if playlist_id = 0 then none
  else (rustLines stdout_dump).get? (playlist_id - 1)

/-- Embedding of the option-building loop of `get_format_from_yt`
(src/src/assembling/youtube/yt_video.rs lines 108-122) over an
already-deserialized catalog: formats passing `check_format` contribute
(label, format_id), rendered through the `Display` implementation;
`none` models a rendering panic. -/
def build_options : List VideoFormat → MediaSelection → Option (List (String × String))
  | [], _ => some []
  | f :: fs, media_selected =>
    if check_format f media_selected then
      match f.display with
      | none => none
      | some label =>
        (build_options fs media_selected).map ((label, f.format_id) :: ·)
    else build_options fs media_selected

/-- The option list `get_format_from_yt` offers for one catalog (labels
only). -/
def format_options_from_yt (specs : VideoSpecs) (media_selected : MediaSelection) :
    Option (List String) :=
  (build_options specs.formats media_selected).map (List.map Prod.fst)

end format

end Youtube

/-! ## Helper lemmas -/

/-- Quiet-mode accumulation is exactly one entry per line containing the
error marker. -/
theorem process_quiet_snd (lines : List String) :
    (Run.process_quiet lines).2 =
      (lines.filter (fun l => containsStr l "ERROR:")).map Run.YtdlpError.from_error_output := by
  induction lines with
  | nil => rfl
  | cons l ls ih =>
    cases hp : Run.process_quiet ls with
    | mk echoed errors =>
      rw [hp] at ih
      cases h : containsStr l "ERROR:" <;>
        simp [Run.process_quiet, hp, h, ih]

/-- Verbose-mode accumulation is exactly one entry per line containing the
error marker. -/
theorem process_verbose_snd (lines : List String) :
    (Run.process_verbose lines).2 =
      (lines.filter (fun l => containsStr l "ERROR:")).map Run.YtdlpError.from_error_output := by
  induction lines with
  | nil => rfl
  | cons l ls ih =>
    cases hp : Run.process_verbose ls with
    | mk echoed errors =>
      rw [hp] at ih
      cases h : containsStr l "ERROR:" <;>
        simp [Run.process_verbose, hp, h, ih]

/-- Default-mode accumulation is one entry per line containing the error
marker but not the progress marker. -/
theorem process_default_snd (lines : List String) :
    (Run.process_default lines).2 =
      (lines.filter (fun l => !containsStr l "[download]" && containsStr l "ERROR:")).map
        Run.YtdlpError.from_error_output := by
  induction lines with
  | nil => rfl
  | cons l ls ih =>
    cases hp : Run.process_default ls with
    | mk echoed errors =>
      rw [hp] at ih
      cases h1 : containsStr l "[download]" <;> cases h2 : containsStr l "ERROR:" <;>
        simp [Run.process_default, hp, h1, h2, ih]

/-- When every error is unrecoverable, the partitioning loop offers no
options and reports the whole list in order. -/
theorem collect_options_all_unrecoverable (errors : List Run.YtdlpError)
    (h : ∀ e ∈ errors, Run.is_recoverable e Run.init_error_msg_lut = false) :
    Run.collect_options errors = ([], errors) := by
  induction errors with
  | nil => rfl
  | cons e es ih =>
    have he : Run.is_recoverable e Run.init_error_msg_lut = false := h e (by simp)
    have ihe := ih (fun x hx => h x (by simp [hx]))
    simp [Run.collect_options, ihe, he]

/-- Membership in the sorted-deduplicated id list is membership in the
catalog's id list. -/
theorem mem_refresh_and_sort_ids (v : YtPlaylist.VideoSpecs) (id : Nat) :
    id ∈ v.refresh_and_sort_ids ↔ id ∈ v.formats.map (fun f => f.code) := by
  unfold YtPlaylist.VideoSpecs.refresh_and_sort_ids
  rw [List.mem_dedup]
  exact (List.perm_insertionSort _ _).mem_iff

/-- Every common id is an id of every catalog in the batch. -/
theorem mem_common_ids {videos : List YtPlaylist.VideoSpecs} {id : Nat}
    (h : id ∈ YtPlaylist.format.common_ids videos) :
    ∀ v ∈ videos, id ∈ v.formats.map (fun f => f.code) := by
  intro v hv
  cases videos with
  | nil => simp at hv
  | cons v0 vs =>
    rw [YtPlaylist.format.common_ids] at h
    have hall := (List.mem_filter.mp h).2
    have hmem := (List.all_eq_true.mp hall) v hv
    rw [← mem_refresh_and_sort_ids]
    simpa [List.contains] using hmem

/-- Every concrete option of the playlist wizard is produced from a
first-catalog format with the option's id, passing the media-kind
filter, and the label is that format's rendering. -/
theorem concrete_options_origin {v0 : YtPlaylist.VideoSpecs}
    {vs : List YtPlaylist.VideoSpecs} {media : YtPlaylist.MediaSelection}
    {p : String × Nat}
    (h : p ∈ YtPlaylist.format.concrete_options (v0 :: vs) media) :
    p.2 ∈ YtPlaylist.format.common_ids (v0 :: vs)
    ∧ ∃ f ∈ v0.formats,
        f.code = p.2 ∧ p.1 = f.to_frontend
        ∧ (media = YtPlaylist.MediaSelection.Video → f.resolution ≠ "audio")
        ∧ (media = YtPlaylist.MediaSelection.Audio → f.resolution = "audio") := by
  rw [YtPlaylist.format.concrete_options] at h
  obtain ⟨id, hid, hp⟩ := List.mem_flatMap.mp h
  simp only [List.head?] at hp
  obtain ⟨f, hf, hfp⟩ := List.mem_filterMap.mp hp
  by_cases h1 : media = YtPlaylist.MediaSelection.Video ∧ f.resolution = "audio"
  · simp [h1] at hfp
  · by_cases h2 : media = YtPlaylist.MediaSelection.Audio ∧ f.resolution ≠ "audio"
    · simp [h1, h2] at hfp
    · by_cases h3 : f.code = id
      · simp [h1, h2, h3] at hfp
        cases hfp
        exact ⟨hid, f, hf, h3, rfl, fun hm hr => h1 ⟨hm, hr⟩,
          fun hm => not_not.mp (fun hr => h2 ⟨hm, hr⟩)⟩
      · simp [h1, h2, h3] at hfp

/-- Every (label, id) pair built by the single-video option loop comes
from a catalog format passing `check_format`, whose rendering is the
label and whose id is the pair's id. -/
theorem build_options_origin :
    ∀ (fs : List Youtube.VideoFormat) (media : Youtube.MediaSelection)
      (res : List (String × String)),
    Youtube.format.build_options fs media = some res →
    ∀ p ∈ res, ∃ f ∈ fs,
      Youtube.check_format f media = true ∧ f.display = some p.1 ∧ f.format_id = p.2 := by
  intro fs
  induction fs with
  | nil =>
    intro media res h p hp
    rw [Youtube.format.build_options] at h
    cases h
    simp at hp
  | cons f fs ih =>
    intro media res h p hp
    rw [Youtube.format.build_options] at h
    by_cases hc : Youtube.check_format f media = true
    · rw [if_pos hc] at h
      cases hd : f.display with
      | none => rw [hd] at h; cases h
      | some label =>
        rw [hd] at h
        cases hrest : Youtube.format.build_options fs media with
        | none => rw [hrest] at h; cases h
        | some res' =>
          rw [hrest] at h
          simp only [Option.map_some] at h
          cases h
          rcases List.mem_cons.mp hp with hhead | htail
          · exact ⟨f, by simp, hc, by rw [hd, hhead], by rw [hhead]⟩
          · obtain ⟨g, hg, hgood⟩ := ih media res' hrest p htail
            exact ⟨g, by simp [hg], hgood⟩
    · rw [if_neg hc] at h
      obtain ⟨g, hg, hgood⟩ := ih media res h p hp
      exact ⟨g, by simp [hg], hgood⟩

/-! ## Claim theorems -/

/-- C1: the claim states that a "retry all" selection (first index 0)
rebuilds a command for every recoverable error and none for an
unrecoverable error.  On the code, with 3 errors of which 1 is
unrecoverable ("Video unavailable") and 2 are recoverable, selection [0]
rebuilds 3 commands — one per error in the full list — including one for
the unrecoverable item, while only 2 retry options were offered. -/
theorem blobdl_c1_retry_all_rebuilds_every_error :
    (Run.collect_options
        [⟨"u1", "Video unavailable"⟩, ⟨"r1", "some new error"⟩, ⟨"r2", "other new error"⟩]).1.length
      = 2
    ∧ Run.is_recoverable ⟨"u1", "Video unavailable"⟩ Run.init_error_msg_lut = false
    ∧ Run.to_be_downloaded
        [⟨"u1", "Video unavailable"⟩, ⟨"r1", "some new error"⟩, ⟨"r2", "other new error"⟩]
        [0] ⟨"cfg"⟩
      = some [⟨⟨"cfg"⟩, "u1"⟩, ⟨⟨"cfg"⟩, "r1"⟩, ⟨⟨"cfg"⟩, "r2"⟩] := by
  decide

/-- C2: the claim states that a selected index i ≥ 2 rebuilds a command
for the (i-2)-th recoverable error in presentation order.  On the code,
with errors [unrecoverable "u1", recoverable "r1"], the prompt shows
"r1" as option index 2, but selection [2] rebuilds a command for
`errors[0]` — the unrecoverable video "u1" — not for the displayed
"r1". -/
theorem blobdl_c2_selection_indexes_full_error_list :
    (Run.ask_for_redownload
        [⟨"u1", "Video unavailable"⟩, ⟨"r1", "some new error"⟩] (fun _ => [2])).user_options
      = [Run.SELECT_ALL, Run.SELECT_NOTHING,
         Run.YtdlpError.display ⟨"r1", "some new error"⟩]
    ∧ Run.is_recoverable ⟨"u1", "Video unavailable"⟩ Run.init_error_msg_lut = false
    ∧ Run.to_be_downloaded
        [⟨"u1", "Video unavailable"⟩, ⟨"r1", "some new error"⟩] [2] ⟨"cfg"⟩
      = some [⟨⟨"cfg"⟩, "u1"⟩] := by
  decide

/-- C3: the recoverability classifier first checks the message for the
"video unavailable" marker (unrecoverable regardless of the table), then
looks the message up in the static table (network failure is the only
recoverable entry; every other documented message, including "Private
video", is unrecoverable), and defaults to recoverable for every message
not in the table. -/
theorem blobdl_c3_classifier_law :
    (∀ e : Run.YtdlpError,
      Run.is_recoverable e Run.init_error_msg_lut = Run.isRecoverableSpec e.error_msg)
    ∧ Run.init_error_msg_lut.lookup Run.NETWORK_FAIL = some true
    ∧ (∀ p ∈ Run.init_error_msg_lut, p.2 = true → p.1 = Run.NETWORK_FAIL)
    ∧ Run.is_recoverable ⟨"v1", Run.PRIVATE_VIDEO⟩ Run.init_error_msg_lut = false
    ∧ Run.is_recoverable ⟨"v2", "ERROR: some new message"⟩ Run.init_error_msg_lut = true := by
  refine ⟨?_, by decide, by decide, by decide, by decide⟩
  intro e
  unfold Run.is_recoverable Run.isRecoverableSpec
  cases h : containsStr e.error_msg Run.VIDEO_UNAVAILABLE
  · simp only [Bool.false_eq_true, if_false]
    cases h2 : Run.init_error_msg_lut.lookup e.error_msg with
    | none => simp
    | some b => cases b <;> simp
  · simp

/-- Witness for C3: the classifier law evaluated on the network-failure
message, and the table fact applied to the network-failure entry. -/
theorem blobdl_c3_witness :
    Run.is_recoverable ⟨"w", "Temporary failure in name resolution"⟩ Run.init_error_msg_lut
      = Run.isRecoverableSpec "Temporary failure in name resolution"
    ∧ (Run.NETWORK_FAIL, true).1 = Run.NETWORK_FAIL :=
  ⟨blobdl_c3_classifier_law.1 ⟨"w", "Temporary failure in name resolution"⟩,
   blobdl_c3_classifier_law.2.2.1 (Run.NETWORK_FAIL, true) (by decide) rfl⟩

/-- C4 counterexample: the claim states the accumulated error list is
identical under Quiet, Default and Verbose for every line sequence, with
one entry per line containing "ERROR:".  On the line
"[download] ERROR: x" — which contains both the progress and the error
marker — Quiet accumulates one error while Default accumulates none, so
the run results differ. -/
theorem blobdl_c4_counterexample :
    Run.run_command Run.Verbosity.Quiet ["[download] ERROR: x"] []
      ≠ Run.run_command Run.Verbosity.Default ["[download] ERROR: x"] [] := by
  decide

/-- C4 (amended): Quiet and Verbose accumulate identically — exactly one
entry per line containing "ERROR:" — while Default accumulates one entry
per line containing "ERROR:" but not "[download]"; consequently, on every
line sequence in which no line contains both markers, all three
verbosities accumulate the same error list. -/
theorem blobdl_c4_verbosity_accumulation :
    ∀ lines : List String,
    (Run.process_quiet lines).2 = (Run.process_verbose lines).2
    ∧ (Run.process_quiet lines).2
        = (lines.filter (fun l => containsStr l "ERROR:")).map Run.YtdlpError.from_error_output
    ∧ (Run.process_default lines).2
        = (lines.filter (fun l => !containsStr l "[download]" && containsStr l "ERROR:")).map
            Run.YtdlpError.from_error_output
    ∧ ((∀ l ∈ lines, ¬(containsStr l "[download]" = true ∧ containsStr l "ERROR:" = true)) →
        (Run.process_default lines).2 = (Run.process_quiet lines).2) := by
  intro lines
  refine ⟨?_, process_quiet_snd lines, process_default_snd lines, ?_⟩
  · rw [process_quiet_snd, process_verbose_snd]
  · intro h
    rw [process_quiet_snd, process_default_snd]
    have : lines.filter (fun l => !containsStr l "[download]" && containsStr l "ERROR:")
        = lines.filter (fun l => containsStr l "ERROR:") := by
      apply List.filter_congr
      intro l hl
      cases h1 : containsStr l "[download]"
      · simp
      · cases h2 : containsStr l "ERROR:"
        · simp
        · exact absurd ⟨h1, h2⟩ (h l hl)
    rw [this]

/-- Witness for C4: the amended agreement applied to a one-line sequence
whose line carries only the error marker. -/
theorem blobdl_c4_witness :
    (Run.process_default ["ERROR: a"]).2 = (Run.process_quiet ["ERROR: a"]).2 :=
  (blobdl_c4_verbosity_accumulation ["ERROR: a"]).2.2.2 (by decide)

/-- C5: the claim states the two output streams are consumed
concurrently, never reading all of stdout before starting on stderr.  On
the code, `stdout.lines().chain(stderr.lines())` makes the processed
line sequence exactly stdout followed by stderr: for every pair of
streams, the first |stdout| consumed lines are the whole stdout stream
and the remaining ones the whole stderr stream — fully sequential
consumption. -/
theorem blobdl_c5_sequential_consumption :
    ∀ stdout_lines stderr_lines : List String,
    Run.consumed_lines stdout_lines stderr_lines = stdout_lines ++ stderr_lines
    ∧ (Run.consumed_lines stdout_lines stderr_lines).take stdout_lines.length = stdout_lines
    ∧ (Run.consumed_lines stdout_lines stderr_lines).drop stdout_lines.length = stderr_lines := by
  intro so se
  refine ⟨rfl, ?_, ?_⟩
  · simp [Run.consumed_lines]
  · simp [Run.consumed_lines]

/-- C9: when no error in the list is recoverable, `ask_for_redownload`
issues no prompt, offers only the two fixed options, reports every error
as unrecoverable (in order), and returns the empty selection, from which
no command is rebuilt. -/
theorem blobdl_c9_no_recoverable_no_prompt :
    ∀ (errors : List Run.YtdlpError) (choose : List String → List Nat)
      (cfg : Run.DownloadConfig),
    (∀ e ∈ errors, Run.is_recoverable e Run.init_error_msg_lut = false) →
    (Run.ask_for_redownload errors choose).prompted = false
    ∧ (Run.ask_for_redownload errors choose).selection = []
    ∧ (Run.ask_for_redownload errors choose).user_options = [Run.SELECT_ALL, Run.SELECT_NOTHING]
    ∧ (Run.ask_for_redownload errors choose).reported = errors
    ∧ Run.to_be_downloaded errors (Run.ask_for_redownload errors choose).selection cfg
        = some [] := by
  intro errors choose cfg h
  have hc := collect_options_all_unrecoverable errors h
  have hout : Run.ask_for_redownload errors choose
      = ⟨[Run.SELECT_ALL, Run.SELECT_NOTHING], errors, false, []⟩ := by
    rw [Run.ask_for_redownload, hc]
    rfl
  rw [hout]
  exact ⟨rfl, rfl, rfl, rfl, rfl⟩

/-- Witness for C9: a single-error list whose only error is
unrecoverable ("Video unavailable"). -/
theorem blobdl_c9_witness :
    (Run.ask_for_redownload [⟨"u1", "Video unavailable"⟩] (fun _ => [0])).prompted = false
    ∧ (Run.ask_for_redownload [⟨"u1", "Video unavailable"⟩] (fun _ => [0])).selection = []
    ∧ (Run.ask_for_redownload [⟨"u1", "Video unavailable"⟩] (fun _ => [0])).user_options
        = [Run.SELECT_ALL, Run.SELECT_NOTHING]
    ∧ (Run.ask_for_redownload [⟨"u1", "Video unavailable"⟩] (fun _ => [0])).reported
        = [⟨"u1", "Video unavailable"⟩]
    ∧ Run.to_be_downloaded [⟨"u1", "Video unavailable"⟩]
        (Run.ask_for_redownload [⟨"u1", "Video unavailable"⟩] (fun _ => [0])).selection ⟨"c"⟩
        = some [] :=
  blobdl_c9_no_recoverable_no_prompt [⟨"u1", "Video unavailable"⟩] (fun _ => [0]) ⟨"c"⟩
    (by decide)

/-- C6: for every non-empty batch and media kind, the playlist wizard's
option list is the two fixed pseudo-options (best-per-item then
worst-per-item) followed by the concrete labels; every offered concrete
id occurs in every catalog of the batch; every concrete option is
produced from a first-catalog format with that id that passes the
media-kind filter (audio-only resolutions excluded for Video, only
audio-only kept for Audio), with the label rendered from that
first-catalog format; and selections 0 and 1 yield the BestQuality and
WorstQuality preferences. -/
theorem blobdl_c6_intersector :
    ∀ (v0 : YtPlaylist.VideoSpecs) (vs : List YtPlaylist.VideoSpecs)
      (media : YtPlaylist.MediaSelection),
    YtPlaylist.format.format_options (v0 :: vs) media
      = [YtPlaylist.BEST_PROMPT, YtPlaylist.WORST_PROMPT]
        ++ (YtPlaylist.format.concrete_options (v0 :: vs) media).map Prod.fst
    ∧ (∀ id ∈ YtPlaylist.format.correct_ids (v0 :: vs) media,
        ∀ v ∈ v0 :: vs, id ∈ v.formats.map (fun f => f.code))
    ∧ (∀ p ∈ YtPlaylist.format.concrete_options (v0 :: vs) media,
        ∃ f ∈ v0.formats,
          f.code = p.2 ∧ p.1 = f.to_frontend
          ∧ (media = YtPlaylist.MediaSelection.Video → f.resolution ≠ "audio")
          ∧ (media = YtPlaylist.MediaSelection.Audio → f.resolution = "audio"))
    ∧ YtPlaylist.format.get_format (v0 :: vs) media 0
        = some YtPlaylist.VideoQualityAndFormatPreferences.BestQuality
    ∧ YtPlaylist.format.get_format (v0 :: vs) media 1
        = some YtPlaylist.VideoQualityAndFormatPreferences.WorstQuality := by
  intro v0 vs media
  refine ⟨rfl, ?_, ?_, rfl, rfl⟩
  · intro id hid v hv
    obtain ⟨p, hp, hpid⟩ := List.mem_map.mp hid
    have horigin := concrete_options_origin hp
    exact mem_common_ids (hpid ▸ horigin.1) v hv
  · intro p hp
    exact (concrete_options_origin hp).2

/-- Witness for C6: the batch from the spec's scenario — catalogs with
ids (18, 22, 140-audio) and (22, 140-audio, 251-audio) — under Video:
the soundness conjunct places the offered id 22 in the second catalog as
well. -/
theorem blobdl_c6_witness :
    22 ∈ (⟨[⟨22, "mp4", "1280x720", "21M"⟩, ⟨140, "m4a", "audio", "5M"⟩,
            ⟨251, "webm", "audio", "4M"⟩]⟩ : YtPlaylist.VideoSpecs).formats.map
          (fun f => f.code) :=
  (blobdl_c6_intersector
      ⟨[⟨18, "mp4", "640x360", "10M"⟩, ⟨22, "mp4", "1280x720", "20M"⟩,
        ⟨140, "m4a", "audio", "5M"⟩]⟩
      [⟨[⟨22, "mp4", "1280x720", "21M"⟩, ⟨140, "m4a", "audio", "5M"⟩,
         ⟨251, "webm", "audio", "4M"⟩]⟩]
      YtPlaylist.MediaSelection.Video).2.1
    22 (by decide)
    ⟨[⟨22, "mp4", "1280x720", "21M"⟩, ⟨140, "m4a", "audio", "5M"⟩,
      ⟨251, "webm", "audio", "4M"⟩]⟩ (by decide)

/-- C7: a format descriptor with no bitrate (a thumbnail/picture format)
never reaches the single-video option list: every offered option
originates from a catalog format that passes `check_format` and hence
has a bitrate, and a no-bitrate format always fails `check_format` (its
Display rendering — the placeholder text — is therefore never among the
selectable options). -/
theorem blobdl_c7_thumbnail_exclusion :
    ∀ (specs : Youtube.VideoSpecs) (media : Youtube.MediaSelection)
      (res : List (String × String)),
    Youtube.format.build_options specs.formats media = some res →
    (∀ p ∈ res, ∃ f ∈ specs.formats,
        Youtube.check_format f media = true ∧ f.tbr.isSome = true
        ∧ f.display = some p.1 ∧ f.format_id = p.2)
    ∧ (∀ f ∈ specs.formats, f.tbr = none →
        Youtube.check_format f media = false
        ∧ f.display = some Youtube.PICTURE_PLACEHOLDER) := by
  intro specs media res h
  constructor
  · intro p hp
    obtain ⟨f, hf, hc, hrest⟩ := build_options_origin specs.formats media res h p hp
    refine ⟨f, hf, hc, ?_, hrest⟩
    rw [Youtube.check_format.eq_def] at hc
    simp only [Bool.and_eq_true] at hc
    exact hc.1
  · intro f _ htbr
    constructor
    · rw [Youtube.check_format.eq_def, htbr]
      rfl
    · rw [Youtube.VideoFormat.display, htbr]

/-- Witness for C7: a storyboard format with no bitrate fails
`check_format` and renders as the placeholder, in a catalog whose option
list is empty. -/
theorem blobdl_c7_witness :
    Youtube.check_format
        ⟨"sb0", "mhtml", none, none, "48x27", none, "none", "none", "storyboard",
         none, none, none⟩ Youtube.MediaSelection.Video = false
    ∧ (⟨"sb0", "mhtml", none, none, "48x27", none, "none", "none", "storyboard",
        none, none, none⟩ : Youtube.VideoFormat).display
        = some Youtube.PICTURE_PLACEHOLDER :=
  (blobdl_c7_thumbnail_exclusion
      ⟨[⟨"sb0", "mhtml", none, none, "48x27", none, "none", "none", "storyboard",
         none, none, none⟩]⟩
      Youtube.MediaSelection.Video [] (by decide)).2
    ⟨"sb0", "mhtml", none, none, "48x27", none, "none", "none", "storyboard",
     none, none, none⟩ (by decide) rfl

/-- C8: the claim states line-oriented dump parsing never fails or
panics, even on dumps with empty lines.  On the code, the dump "a\n\n"
— one paragraph whose second line is empty — makes
`line.chars().next().unwrap()` panic (modelled `none`), while dumps
without empty lines behave as the claim describes: non-numeric lines are
dropped and a paragraph with zero valid lines yields no catalog rather
than an error. -/
theorem blobdl_c8_empty_line_panics :
    YtPlaylist.format.fetch_formats "a\n\n" = none
    ∧ YtPlaylist.format.fetch_formats "a\nzzz" = some []
    ∧ YtPlaylist.format.fetch_formats
        "junk\n22   mp4   1280x720   720p  468k , avc1, 30fps\nbad line"
      = some [⟨[⟨22, "mp4", "1280x720", "468k"⟩]⟩] := by
  decide

/-- C10: the root-selection step of `get_format_from_yt` requires
1 ≤ playlist_id ≤ number of dump lines: playlist_id = 0 panics through
the unsigned underflow of `playlist_id - 1`, a playlist_id beyond the
line count panics through the `unwrap` of `nth`'s None (both modelled
`none`), and every in-range playlist_id yields a line. -/
theorem blobdl_c10_playlist_id_precondition :
    ∀ (stdout_dump : String) (playlist_id : Nat),
    Youtube.format.select_json_root stdout_dump 0 = none
    ∧ ((rustLines stdout_dump).length < playlist_id →
        Youtube.format.select_json_root stdout_dump playlist_id = none)
    ∧ (1 ≤ playlist_id → playlist_id ≤ (rustLines stdout_dump).length →
        (Youtube.format.select_json_root stdout_dump playlist_id).isSome = true) := by
  intro s pid
  refine ⟨by simp [Youtube.format.select_json_root], ?_, ?_⟩
  · intro h
    rw [Youtube.format.select_json_root, if_neg (by omega)]
    exact List.get?_eq_none.mpr (by omega)
  · intro h1 h2
    rw [Youtube.format.select_json_root, if_neg (by omega)]
    rw [List.get?_eq_get (by omega)]
    rfl

/-- Witness for C10: on the two-line dump "x\ny", playlist_id 3 exceeds
the line count and panics, while playlist_id 1 is in range and yields a
line. -/
theorem blobdl_c10_witness :
    Youtube.format.select_json_root "x\ny" 3 = none
    ∧ (Youtube.format.select_json_root "x\ny" 1).isSome = true :=
  ⟨(blobdl_c10_playlist_id_precondition "x\ny" 3).2.1 (by decide),
   (blobdl_c10_playlist_id_precondition "x\ny" 1).2.2 (by decide) (by decide)⟩
